import Mathlib

/-!
Verification of the application-class stub in `src/src/flask/app.py`.

The source declares a class `Flask` whose constructor assigns ten
configuration attributes verbatim, a `run` method and an `add_url_rule`
method whose bodies are `pass`, and a `route` method that returns a
decorator closure.  The decorator pops the `'endpoint'` key from the
captured keyword-options dict (mutating it), calls `add_url_rule` once,
and returns the decorated callable unchanged.

Embedding conventions:
* The application object is the structure `Flask` holding exactly the ten
  attributes the constructor assigns; the class stores nothing else.
* Python keyword options (`**options`) are association lists
  `Options V := List (String × V)` with string keys; a dict's keys are
  distinct, which appears as a `Nodup` hypothesis where it matters.
* View callables are values of an arbitrary type `F`; the code never
  inspects them.
* Every method returns `Except String _`: the translation of a body that
  only assigns fields or is `pass` is `.ok _`, and the source contains no
  `raise`, so no `.error` is ever produced.  A Python `None` return value
  is `()`.
* The decorator closure is the structure `Decorator`, carrying the
  captured `self`, `rule` and the current (mutable) options dict; applying
  it returns the new closure state, so its statefulness is observable.
* Calls the decorator makes to `add_url_rule` are recorded as
  `UrlRuleCall` values so that claims about the forwarded arguments can be
  stated, even though `add_url_rule`'s body is `pass`.
-/

/-- The application object of `src/src/flask/app.py`: exactly the ten
attributes that `Flask.__init__` assigns.  The class defines no further
state (in particular no rule-to-endpoint mapping). -/
structure Flask where
  import_name : String
  static_url_path : Option String
  static_folder : Option String
  static_host : Option String
  host_matching : Bool
  subdomain_matching : Bool
  template_folder : Option String
  instance_path : Option String
  instance_relative_config : Bool
  root_path : Option String
deriving DecidableEq

/-- Keyword options (`**options`): an association list with string keys.
A Python dict has pairwise-distinct keys; where this matters it appears as
a `Nodup` hypothesis on the key list. -/
abbrev Options (V : Type) : Type := List (String × V)

/-- Python `dict.pop(key, None)`: the value stored under `key` (or `none`)
together with the dict with that key removed. -/
def Options.pop {V : Type} (o : Options V) (key : String) :
    Option V × Options V :=
  match o with
  | [] => (none, [])
  | (k, v) :: rest =>
    if k == key then (some v, rest)
    else
      let p := Options.pop rest key
      (p.1, (k, v) :: p.2)

/-- `Flask.__init__`: assigns each of the ten parameters to the attribute
of the same name.  The body contains nothing else, so it cannot raise. -/
def Flask.init (import_name : String)
    (static_url_path : Option String := none)
    (static_folder : Option String := some "static")
    (static_host : Option String := none)
    (host_matching : Bool := false)
    (subdomain_matching : Bool := false)
    (template_folder : Option String := some "templates")
    (instance_path : Option String := none)
    (instance_relative_config : Bool := false)
    (root_path : Option String := none) : Except String Flask :=
  .ok ⟨import_name, static_url_path, static_folder, static_host,
    host_matching, subdomain_matching, template_folder, instance_path,
    instance_relative_config, root_path⟩

/-- `Flask.run`: the body is `pass`, so the object is unchanged and the
return value is `None` (modelled `()`). -/
def Flask.run {V : Type} (app : Flask) (host : Option String)
    (port : Option Int) (debug : Option Bool) (load_dotenv : Bool)
    (options : Options V) : Except String (Flask × Unit) :=
  .ok (app, ())

/-- `Flask.run` at a call site that omits `load_dotenv`: the signature
default `load_dotenv: bool = True` is supplied. -/
def Flask.runNoDotenv {V : Type} (app : Flask) (host : Option String)
    (port : Option Int) (debug : Option Bool) (options : Options V) :
    Except String (Flask × Unit) :=
  Flask.run app host port debug true options

/-- `Flask.add_url_rule`: the body is `pass`, so the object is unchanged,
nothing is recorded anywhere, and the return value is `None`. -/
def Flask.add_url_rule {F V : Type} (app : Flask) (rule : String)
    (endpoint : Option V) (view_func : Option F) (options : Options V) :
    Except String (Flask × Unit) :=
  .ok (app, ())

/-- The closure returned by `Flask.route`: it captures `self`, `rule` and
the keyword-options dict.  The dict is mutable and shared across
applications of the closure. -/
structure Decorator (V : Type) where
  app : Flask
  rule : String
  options : Options V
deriving DecidableEq

/-- `Flask.route(rule, **options)`: builds and returns the decorator
closure.  The body only defines the closure, so it cannot raise. -/
def Flask.route {V : Type} (app : Flask) (rule : String)
    (options : Options V) : Except String (Decorator V) :=
  .ok ⟨app, rule, options⟩

/-- One invocation of `add_url_rule`, with the arguments it received. -/
structure UrlRuleCall (F V : Type) where
  rule : String
  endpoint : Option V
  view_func : Option F
  options : Options V
deriving DecidableEq

/-- Applying the decorator to a callable `f`:
`endpoint = options.pop('endpoint', None)` (mutating the captured dict),
then `self.add_url_rule(rule, endpoint, f, **options)`, then `return f`.
The result carries the returned callable, the closure's state after the
call, and the list of `add_url_rule` invocations performed. -/
def Decorator.apply {V F : Type} (d : Decorator V) (f : F) :
    Except String (F × Decorator V × List (UrlRuleCall F V)) :=
  let p := Options.pop d.options "endpoint"
  match Flask.add_url_rule d.app d.rule p.1 (some f) p.2 with
  | .ok (app1, _) => .ok (f, ⟨app1, d.rule, p.2⟩, [⟨d.rule, p.1, some f, p.2⟩])
  | .error e => .error e

/-- Applying one decorator closure to each callable in a list in turn,
threading the closure's state; returns the final application object. -/
def Decorator.applyAll {V F : Type} (d : Decorator V) (fs : List F) :
    Except String Flask :=
  match fs with
  | [] => .ok d.app
  | f :: rest =>
    match d.apply f with
    | .ok (_, d1, _) => Decorator.applyAll d1 rest
    | .error e => .error e

/-- An operation performed on an already-constructed application object. -/
inductive Op (F V : Type) where
  | runOp (host : Option String) (port : Option Int) (debug : Option Bool)
      (load_dotenv : Bool) (options : Options V) : Op F V
  | addUrlRuleOp (rule : String) (endpoint : Option V)
      (view_func : Option F) (options : Options V) : Op F V
  | routeApplyOp (rule : String) (options : Options V) (fs : List F) : Op F V

/-- Executing one operation on the application object. -/
def applyOp {F V : Type} (app : Flask) (op : Op F V) : Except String Flask :=
  match op with
  | .runOp h p dbg ld o =>
    match Flask.run app h p dbg ld o with
    | .ok (a, _) => .ok a
    | .error e => .error e
  | .addUrlRuleOp r e v o =>
    match Flask.add_url_rule app r e v o with
    | .ok (a, _) => .ok a
    | .error e => .error e
  | .routeApplyOp r o fs =>
    match Flask.route app r o with
    | .ok d => Decorator.applyAll d fs
    | .error e => .error e

/-- Executing a sequence of operations on the application object. -/
def runOps {F V : Type} (app : Flask) (ops : List (Op F V)) :
    Except String Flask :=
  match ops with
  | [] => .ok app
  | op :: rest =>
    match applyOp app op with
    | .ok app1 => runOps app1 rest
    | .error e => .error e

/-- A fixed application object used to exercise the theorems below. -/
def flask0 : Flask :=
  ⟨"myapp", none, some "static", none, false, false, some "templates",
    none, false, none⟩

/-- Unfolding `List.lookup` on a cons cell, with a propositional test. -/
theorem lookup_cons_eq_ite {V : Type} (key k : String) (v : V)
    (t : List (String × V)) :
    List.lookup key ((k, v) :: t) =
      if key = k then some v else List.lookup key t := by
  by_cases h : key = k
  · subst h
    simp [List.lookup]
  · have hb : (key == k) = false := by simp [h]
    simp [List.lookup, hb, h]

/-- The value `Options.pop` extracts is the association-list lookup of the
key: the stored value, or `none` when the key is absent. -/
theorem Options.pop_fst {V : Type} (o : Options V) (key : String) :
    (Options.pop o key).1 = List.lookup key o := by
  induction o with
  | nil => rfl
  | cons hd t ih =>
    obtain ⟨k, v⟩ := hd
    rw [lookup_cons_eq_ite]
    by_cases hk : k = key
    · subst hk
      simp [Options.pop]
    · have hk2 : ¬key = k := fun h => hk h.symm
      simp [Options.pop, hk, hk2, ih]

/-- Looking up a key that does not occur among the keys yields `none`. -/
theorem lookup_none_of_key_not_mem {V : Type} (key : String)
    (o : Options V) (h : key ∉ o.map Prod.fst) :
    List.lookup key o = none := by
  induction o with
  | nil => rfl
  | cons hd t ih =>
    obtain ⟨k, v⟩ := hd
    simp only [List.map_cons, List.mem_cons] at h
    push_neg at h
    rw [lookup_cons_eq_ite, if_neg h.1]
    exact ih h.2

/-- Popping a key that is absent leaves the dict unchanged. -/
theorem Options.pop_of_lookup_none {V : Type} {key : String}
    {o : Options V} (h : List.lookup key o = none) :
    Options.pop o key = (none, o) := by
  induction o with
  | nil => rfl
  | cons hd t ih =>
    obtain ⟨k, v⟩ := hd
    rw [lookup_cons_eq_ite] at h
    by_cases hk : key = k
    · rw [if_pos hk] at h
      cases h
    · rw [if_neg hk] at h
      have hk2 : ¬k = key := fun hh => hk hh.symm
      simp [Options.pop, hk2, ih h]

/-- On a dict (distinct keys), `pop` returns the lookup of the key together
with the entries whose key differs. -/
theorem Options.pop_eq_of_nodup {V : Type} (o : Options V) (key : String)
    (h : (o.map Prod.fst).Nodup) :
    Options.pop o key =
      (List.lookup key o, o.filter (fun p => !(p.1 == key))) := by
  induction o with
  | nil => rfl
  | cons hd t ih =>
    obtain ⟨k, v⟩ := hd
    simp only [List.map_cons, List.nodup_cons] at h
    obtain ⟨hk, ht⟩ := h
    rw [lookup_cons_eq_ite]
    by_cases hkey : k = key
    · subst hkey
      have hfix : t.filter (fun p => !(p.1 == k)) = t := by
        rw [List.filter_eq_self]
        intro p hp
        simp only [Bool.not_eq_true', beq_eq_false_iff_ne, ne_eq]
        intro hpk
        exact hk (hpk ▸ List.mem_map_of_mem Prod.fst hp)
      simp [Options.pop, List.filter, hfix]
    · have hkey2 : ¬key = k := fun hh => hkey hh.symm
      have hb : (k == key) = false := by simp [hkey]
      simp [Options.pop, List.filter, hkey, hkey2, hb, ih ht]

/-- After popping a key from a dict with distinct keys, the key is gone. -/
theorem lookup_pop_snd {V : Type} (o : Options V) (key : String)
    (h : (o.map Prod.fst).Nodup) :
    List.lookup key (Options.pop o key).2 = none := by
  rw [Options.pop_eq_of_nodup o key h]
  refine lookup_none_of_key_not_mem key _ (fun hmem => ?_)
  obtain ⟨p, hp, hpk⟩ := List.mem_map.mp hmem
  have := List.of_mem_filter hp
  simp only [Bool.not_eq_true', beq_eq_false_iff_ne, ne_eq] at this
  exact this hpk

/-- Unfolding one decorator application: pop, one `add_url_rule` call,
return the callable and the updated closure. -/
theorem Decorator.apply_eq {V F : Type} (d : Decorator V) (f : F) :
    d.apply f =
      .ok (f, ⟨d.app, d.rule, (Options.pop d.options "endpoint").2⟩,
        [⟨d.rule, (Options.pop d.options "endpoint").1, some f,
          (Options.pop d.options "endpoint").2⟩]) := rfl

/-- Folding a decorator over any list of callables never changes the
application object. -/
theorem Decorator.applyAll_eq {V F : Type} (d : Decorator V) (fs : List F) :
    Decorator.applyAll d fs = .ok d.app := by
  induction fs generalizing d with
  | nil => rfl
  | cons f rest ih =>
    rw [Decorator.applyAll, Decorator.apply_eq]
    exact ih _

/-- A single operation never changes the application object. -/
theorem applyOp_eq {F V : Type} (app : Flask) (op : Op F V) :
    applyOp app op = .ok app := by
  cases op with
  | runOp h p dbg ld o => rfl
  | addUrlRuleOp r e v o => rfl
  | routeApplyOp r o fs => exact Decorator.applyAll_eq ⟨app, r, o⟩ fs

/-- No sequence of operations changes the application object. -/
theorem runOps_eq {F V : Type} (app : Flask) (ops : List (Op F V)) :
    runOps app ops = .ok app := by
  induction ops generalizing app with
  | nil => rfl
  | cons op rest ih =>
    rw [runOps, applyOp_eq]
    exact ih _

/-- C1: construction stores every constructor argument verbatim in the
field of the same name (identity round-trip); in particular an
import_name of "myapp" reads back "myapp". -/
theorem init_round_trips_all_fields (a : String) (sup sf sh : Option String)
    (hm sm : Bool) (tf ip : Option String) (irc : Bool)
    (rp : Option String) :
    ∃ app : Flask, Flask.init a sup sf sh hm sm tf ip irc rp = .ok app ∧
      app.import_name = a ∧ app.static_url_path = sup ∧
      app.static_folder = sf ∧ app.static_host = sh ∧
      app.host_matching = hm ∧ app.subdomain_matching = sm ∧
      app.template_folder = tf ∧ app.instance_path = ip ∧
      app.instance_relative_config = irc ∧ app.root_path = rp ∧
      (Flask.init "myapp").toOption.map Flask.import_name = some "myapp" :=
  ⟨_, rfl, rfl, rfl, rfl, rfl, rfl, rfl, rfl, rfl, rfl, rfl, rfl⟩

/-- C2: the decorator returned by route gives back the decorated callable
itself: the first component of a successful application is `f`. -/
theorem route_decorator_returns_callable {F V : Type} (app : Flask)
    (rule : String) (options : Options V) (f : F) :
    ∃ d st, Flask.route app rule options = .ok d ∧
      Decorator.apply d f = .ok (f, st) :=
  ⟨_, _, rfl, rfl⟩

/-- C3: applying the decorator invokes add_url_rule exactly once, with the
rule, the value stored under the endpoint key (none when absent), the
callable, and the remaining options without the endpoint key. -/
theorem route_decorator_calls_add_url_rule_once {F V : Type} (app : Flask)
    (rule : String) (options : Options V) (f : F)
    (hnd : (options.map Prod.fst).Nodup) :
    ∃ d d1, Flask.route app rule options = .ok d ∧
      Decorator.apply d f = .ok (f, d1,
        [⟨rule, List.lookup "endpoint" options, some f,
          options.filter (fun p => !(p.1 == "endpoint"))⟩]) := by
  have hpop := Options.pop_eq_of_nodup options "endpoint" hnd
  refine ⟨⟨app, rule, options⟩,
    ⟨app, rule, (Options.pop options "endpoint").2⟩, rfl, ?_⟩
  simp only [Decorator.apply_eq, hpop]

/-- C3 witness: concrete options with an endpoint entry. -/
theorem route_decorator_calls_add_url_rule_once_witness :
    ((([("endpoint", "idx")] : Options String).map Prod.fst).Nodup) ∧
    (∃ d d1, Flask.route flask0 "/" [("endpoint", "idx")] = .ok d ∧
      Decorator.apply d (37 : Nat) = .ok (37, d1,
        [⟨"/", List.lookup "endpoint"
            ([("endpoint", "idx")] : Options String), some 37,
          ([("endpoint", "idx")] : Options String).filter
            (fun p => !(p.1 == "endpoint"))⟩])) :=
  ⟨by decide,
    route_decorator_calls_add_url_rule_once flask0 "/" [("endpoint", "idx")]
      37 (by decide)⟩

/-- C4: run and add_url_rule return None, leave every field of the object
unchanged, record no mapping, and never raise. -/
theorem run_and_add_url_rule_noop {F V : Type} (app : Flask)
    (host : Option String) (port : Option Int) (debug : Option Bool)
    (ld : Bool) (o1 : Options V) (rule : String) (ep : Option V)
    (vf : Option F) (o2 : Options V) :
    Flask.run app host port debug ld o1 = .ok (app, ()) ∧
    Flask.add_url_rule app rule ep vf o2 = .ok (app, ()) :=
  ⟨rfl, rfl⟩

/-- C5: no operation of the class raises: construction, run, route, the
returned decorator, and add_url_rule all return a normal result for every
well-typed argument tuple. -/
theorem no_operation_raises {F V : Type} (a : String)
    (sup sf sh : Option String) (hm sm : Bool) (tf ip : Option String)
    (irc : Bool) (rp : Option String) (app : Flask) (host : Option String)
    (port : Option Int) (debug : Option Bool) (ld : Bool)
    (rule r2 : String) (o1 o2 o3 : Options V) (d : Decorator V)
    (f : F) (ep : Option V) (vf : Option F) :
    (∃ x, Flask.init a sup sf sh hm sm tf ip irc rp = .ok x) ∧
    (∃ x, Flask.run app host port debug ld o1 = .ok x) ∧
    (∃ x, Flask.route app rule o2 = .ok x) ∧
    (∃ x, Decorator.apply d f = .ok x) ∧
    (∃ x, Flask.add_url_rule app r2 ep vf o3 = .ok x) :=
  ⟨⟨_, rfl⟩, ⟨_, rfl⟩, ⟨_, rfl⟩, ⟨_, rfl⟩, ⟨_, rfl⟩⟩

/-- C6: the ten configuration fields are set exactly once at construction
and preserved by every sequence of subsequent operations (run,
add_url_rule, route followed by any number of decorator applications). -/
theorem fields_set_once_preserved {F V : Type} (a : String)
    (sup sf sh : Option String) (hm sm : Bool) (tf ip : Option String)
    (irc : Bool) (rp : Option String) (ops : List (Op F V)) :
    ∃ app : Flask, Flask.init a sup sf sh hm sm tf ip irc rp = .ok app ∧
      runOps app ops = .ok app ∧
      app.import_name = a ∧ app.static_url_path = sup ∧
      app.static_folder = sf ∧ app.static_host = sh ∧
      app.host_matching = hm ∧ app.subdomain_matching = sm ∧
      app.template_folder = tf ∧ app.instance_path = ip ∧
      app.instance_relative_config = irc ∧ app.root_path = rp :=
  ⟨_, rfl, runOps_eq _ ops, rfl, rfl, rfl, rfl, rfl, rfl, rfl, rfl, rfl, rfl⟩

/-- C7: the decorator is stateful in its captured options dict: when the
options hold an endpoint entry, the first application forwards it and a
second application of the same decorator forwards none, so the two
applications forward different endpoint arguments. -/
theorem decorator_stateful_endpoint {F V : Type} (app : Flask)
    (rule : String) (options : Options V) (v : V) (f g : F)
    (hnd : (options.map Prod.fst).Nodup)
    (hv : List.lookup "endpoint" options = some v) :
    ∃ (d d1 d2 : Decorator V) (c1 c2 : UrlRuleCall F V),
      Flask.route app rule options = .ok d ∧
      Decorator.apply d f = .ok (f, d1, [c1]) ∧
      Decorator.apply d1 g = .ok (g, d2, [c2]) ∧
      c1.endpoint = some v ∧ c2.endpoint = none ∧
      c1.endpoint ≠ c2.endpoint := by
  have h1 : (Options.pop options "endpoint").1 = some v := by
    rw [Options.pop_fst]
    exact hv
  have h2 : (Options.pop (Options.pop options "endpoint").2 "endpoint").1 =
      none := by
    rw [Options.pop_fst]
    exact lookup_pop_snd options "endpoint" hnd
  refine ⟨⟨app, rule, options⟩,
    ⟨app, rule, (Options.pop options "endpoint").2⟩,
    ⟨app, rule, (Options.pop (Options.pop options "endpoint").2 "endpoint").2⟩,
    ⟨rule, (Options.pop options "endpoint").1, some f,
      (Options.pop options "endpoint").2⟩,
    ⟨rule, (Options.pop (Options.pop options "endpoint").2 "endpoint").1,
      some g, (Options.pop (Options.pop options "endpoint").2 "endpoint").2⟩,
    rfl, rfl, rfl, h1, h2, ?_⟩
  show (Options.pop options "endpoint").1 ≠
    (Options.pop (Options.pop options "endpoint").2 "endpoint").1
  rw [h1, h2]
  simp

/-- C7 witness: one decorator applied to two distinct callables. -/
theorem decorator_stateful_endpoint_witness :
    ((([("endpoint", "home")] : Options String).map Prod.fst).Nodup) ∧
    (List.lookup "endpoint" ([("endpoint", "home")] : Options String) =
      some "home") ∧
    (∃ (d d1 d2 : Decorator String) (c1 c2 : UrlRuleCall Nat String),
      Flask.route flask0 "/" [("endpoint", "home")] = .ok d ∧
      Decorator.apply d 0 = .ok (0, d1, [c1]) ∧
      Decorator.apply d1 1 = .ok (1, d2, [c2]) ∧
      c1.endpoint = some "home" ∧ c2.endpoint = none ∧
      c1.endpoint ≠ c2.endpoint) :=
  ⟨by decide, by decide,
    decorator_stateful_endpoint flask0 "/" [("endpoint", "home")] "home"
      0 1 (by decide) (by decide)⟩

/-- C8: when the options hold no endpoint key the decorator forwards none
as the endpoint to add_url_rule and passes the options on unchanged; the
forwarded endpoint is the same for any two callables, so it is never
derived from the callable. -/
theorem absent_endpoint_forwards_none {F V : Type} (app : Flask)
    (rule : String) (options : Options V) (f g : F)
    (h : List.lookup "endpoint" options = none) :
    ∃ (d df dg : Decorator V) (cf cg : UrlRuleCall F V),
      Flask.route app rule options = .ok d ∧
      Decorator.apply d f = .ok (f, df, [cf]) ∧
      Decorator.apply d g = .ok (g, dg, [cg]) ∧
      cf.endpoint = none ∧ cg.endpoint = cf.endpoint ∧
      cf.options = options := by
  have h1 : (Options.pop options "endpoint").1 = none := by
    rw [Options.pop_fst]
    exact h
  have h2 : Options.pop options "endpoint" = (none, options) :=
    Options.pop_of_lookup_none h
  refine ⟨⟨app, rule, options⟩,
    ⟨app, rule, (Options.pop options "endpoint").2⟩,
    ⟨app, rule, (Options.pop options "endpoint").2⟩,
    ⟨rule, (Options.pop options "endpoint").1, some f,
      (Options.pop options "endpoint").2⟩,
    ⟨rule, (Options.pop options "endpoint").1, some g,
      (Options.pop options "endpoint").2⟩,
    rfl, rfl, rfl, h1, rfl, ?_⟩
  show (Options.pop options "endpoint").2 = options
  rw [h2]

/-- C8 witness: options without an endpoint entry. -/
theorem absent_endpoint_forwards_none_witness :
    (List.lookup "endpoint" ([("methods", "GET")] : Options String) =
      none) ∧
    (∃ (d df dg : Decorator String) (cf cg : UrlRuleCall Nat String),
      Flask.route flask0 "/" [("methods", "GET")] = .ok d ∧
      Decorator.apply d 0 = .ok (0, df, [cf]) ∧
      Decorator.apply d 1 = .ok (1, dg, [cg]) ∧
      cf.endpoint = none ∧ cg.endpoint = cf.endpoint ∧
      cf.options = [("methods", "GET")]) :=
  ⟨by decide,
    absent_endpoint_forwards_none flask0 "/" [("methods", "GET")] 0 1
      (by decide)⟩

/-- C9: constructing with only import_name supplied yields the signature
defaults for the other nine fields, and run without load_dotenv is run
with load_dotenv true. -/
theorem construction_and_run_defaults {V : Type} (n : String) (app : Flask)
    (host : Option String) (port : Option Int) (debug : Option Bool)
    (o : Options V) :
    ∃ a : Flask, Flask.init n = .ok a ∧
      a.static_url_path = none ∧ a.static_folder = some "static" ∧
      a.static_host = none ∧ a.host_matching = false ∧
      a.subdomain_matching = false ∧ a.template_folder = some "templates" ∧
      a.instance_path = none ∧ a.instance_relative_config = false ∧
      a.root_path = none ∧
      Flask.runNoDotenv app host port debug o =
        Flask.run app host port debug true o :=
  ⟨_, rfl, rfl, rfl, rfl, rfl, rfl, rfl, rfl, rfl, rfl, rfl⟩
